import Mathlib

/-!
Verification of the MicDup whisper service script
(`src/whisper_service/whisper_service.py`).

The script is sequential glue around an external inference library.  We
embed it shallowly: the surrounding Python runtime and the library
(`torch`, `torch_directml`, `whisper`) are modelled as an environment of
fallible operations (`Except PyExc _`), and each Python function becomes a
Lean function threading an explicit stderr transcript.  `sys.exit(1)` is
an `Outcome.exited 1`; an exception that escapes to the interpreter's top
level makes the process print a traceback to stderr and exit with
status 1, which `main` encodes.
-/

namespace WhisperService

/-- A Python exception value: either an `ImportError` (the class the
`directml` branch catches selectively) or any other `Exception`
subclass, each carrying its message. -/
inductive PyExc where
  | importError (msg : String)
  | otherError (msg : String)
deriving DecidableEq, Repr

/-- The message interpolated by `f"... {e}"` when the script prints an
exception. -/
def PyExc.msg : PyExc → String
  | .importError m => m
  | .otherError m => m

/-- The device value `detect_device` returns: the strings `"cpu"` and
`"cuda"`, or the opaque torch device object produced by
`torch_directml.device()`. -/
inductive Device where
  | cpu
  | cuda
  | dml
deriving DecidableEq, Repr

/-- An opaque whisper model handle. -/
abbrev Model := Nat

/-- The dict returned by `model.transcribe`: the script reads only
`result["text"]`; other metadata is carried but unused. -/
structure TranscribeResult where
  text : String
  language : String
deriving DecidableEq, Repr

/-- The keyword options the script passes to `model.transcribe`:
`{"fp16": use_fp16, "language": language if language else None}`. -/
structure TranscribeOpts where
  fp16 : Bool
  language : Option String
deriving DecidableEq, Repr

/-- The ambient Python runtime and external library, as observed by the
script: each import, hardware probe and library entry point either
returns a value or raises an exception.  Modelling them as fixed fields
makes each one deterministic, which is the spec's stated assumption about
the underlying library. -/
structure Env where
  /-- `import torch` -/
  torchImport : Except PyExc Unit
  /-- `import torch_directml` -/
  directmlImport : Except PyExc Unit
  /-- `torch_directml.device()` -/
  directmlDevice : Except PyExc Unit
  /-- `torch.cuda.is_available()` -/
  cudaIsAvailable : Except PyExc Bool
  /-- `torch.cuda.get_device_name(0)` -/
  cudaName : Except PyExc String
  /-- `Path(p).exists()` -/
  fileExists : String → Bool
  /-- `whisper.load_model(name, device=device)` for a string device -/
  loadModelNative : String → Device → Except PyExc Model
  /-- `whisper.load_model(name)` with default placement -/
  loadModelDefault : String → Except PyExc Model
  /-- `model.to(device)` onto the DirectML device -/
  moveModel : Model → Except PyExc Model
  /-- `model.transcribe(audio_path, **options)` -/
  transcribe : Model → String → TranscribeOpts → Except PyExc TranscribeResult

/-- `detect_device(requested)`: returns the `(device, use_fp16)` pair or
lets an exception propagate, together with the lines it printed to
stderr.  Branch structure follows the source: `cpu` returns immediately;
`cuda` imports torch and probes CUDA with no surrounding `try`;
`directml` wraps its probe in `try ... except ImportError`; everything
else falls to the auto chain, whose two `try` blocks catch every
exception. -/
def detect_device (env : Env) (requested : String) :
    Except PyExc (Device × Bool) × List String :=
  if requested = "cpu" then
    (Except.ok (Device.cpu, false), [])
  else if requested = "cuda" then
    match env.torchImport with
    | Except.error e => (Except.error e, [])
    | Except.ok _ =>
      match env.cudaIsAvailable with
      | Except.error e => (Except.error e, [])
      | Except.ok true =>
        match env.cudaName with
        | Except.error e => (Except.error e, [])
        | Except.ok name =>
          (Except.ok (Device.cuda, true), ["Using CUDA: " ++ name])
      | Except.ok false =>
        (Except.ok (Device.cpu, false),
          ["CUDA requested but not available, falling back to CPU"])
  else if requested = "directml" then
    match env.directmlImport with
    | Except.error (PyExc.importError _) =>
      (Except.ok (Device.cpu, false),
        ["DirectML requested but torch-directml not installed, falling back to CPU"])
    | Except.error e => (Except.error e, [])
    | Except.ok _ =>
      match env.directmlDevice with
      | Except.ok _ =>
        (Except.ok (Device.dml, false), ["Using DirectML device"])
      | Except.error (PyExc.importError _) =>
        (Except.ok (Device.cpu, false),
          ["DirectML requested but torch-directml not installed, falling back to CPU"])
      | Except.error e => (Except.error e, [])
  else
    match env.directmlImport, env.directmlDevice with
    | Except.ok _, Except.ok _ =>
      (Except.ok (Device.dml, false), ["Auto-detected DirectML device"])
    | _, _ =>
      match env.torchImport with
      | Except.error _ =>
        (Except.ok (Device.cpu, false), ["No GPU/NPU detected, using CPU"])
      | Except.ok _ =>
        match env.cudaIsAvailable with
        | Except.ok true =>
          match env.cudaName with
          | Except.ok name =>
            (Except.ok (Device.cuda, true), ["Auto-detected CUDA: " ++ name])
          | Except.error _ =>
            (Except.ok (Device.cpu, false), ["No GPU/NPU detected, using CPU"])
        | _ =>
          (Except.ok (Device.cpu, false), ["No GPU/NPU detected, using CPU"])

/-- Outcome of a script function that may call `sys.exit`: `SystemExit`
is not an `Exception`, so the `except Exception` handlers in
`load_model` and `transcribe_audio` let it terminate the process. -/
inductive Outcome (α : Type) where
  | ok : α → Outcome α
  | exited : Nat → Outcome α
deriving DecidableEq, Repr

/-- The library call sequence inside `load_model`'s `try`:
`whisper.load_model(name, device=device)` when the device is the string
`"cpu"` or `"cuda"`, otherwise `whisper.load_model(name)` followed by
`model.to(device)`. -/
def loadAttempt (env : Env) (model_name : String) (device : Device) :
    Except PyExc Model :=
  match device with
  | Device.cpu => env.loadModelNative model_name Device.cpu
  | Device.cuda => env.loadModelNative model_name Device.cuda
  | Device.dml =>
    match env.loadModelDefault model_name with
    | Except.error e => Except.error e
    | Except.ok m => env.moveModel m

/-- `load_model(model_name, device, use_fp16)`: prints a progress header,
attempts the load, and on any library exception prints the error and
calls `sys.exit(1)`.  The `use_fp16` parameter is accepted but unused,
as in the source. -/
def load_model (env : Env) (model_name : String) (device : Device)
    (use_fp16 : Bool) : Outcome Model × List String :=
  match loadAttempt env model_name device with
  | Except.ok m =>
    (Outcome.ok m,
      ["Loading Whisper model: " ++ model_name ++ "...",
       "Model loaded successfully"])
  | Except.error e =>
    (Outcome.exited 1,
      ["Loading Whisper model: " ++ model_name ++ "...",
       "Error loading model: " ++ e.msg])

/-- The options dict built in `transcribe_audio`: a falsy language
(`None` or the empty string) becomes `None`. -/
def mkOptions (use_fp16 : Bool) (language : Option String) : TranscribeOpts :=
  { fp16 := use_fp16
    language :=
      match language with
      | some l => if l = "" then none else some l
      | none => none }

/-- `transcribe_audio(model, audio_path, language, use_fp16)`: exits with
status 1 when the path does not exist, otherwise runs inference and
returns `result["text"].strip()`; any library exception is printed and
turned into `sys.exit(1)`. -/
def transcribe_audio (env : Env) (model : Model) (audio_path : String)
    (language : Option String) (use_fp16 : Bool) :
    Outcome String × List String :=
  if env.fileExists audio_path then
    match env.transcribe model audio_path (mkOptions use_fp16 language) with
    | Except.ok r =>
      (Outcome.ok r.text.trim, ["Transcribing: " ++ audio_path ++ "..."])
    | Except.error e =>
      (Outcome.exited 1,
        ["Transcribing: " ++ audio_path ++ "...",
         "Error during transcription: " ++ e.msg])
  else
    (Outcome.exited 1, ["Error: Audio file not found: " ++ audio_path])

/-- The command-line arguments after argparse: positional audio path,
`--model` (default `base`), `--language` (default `None`), `--device`
(default `auto`). -/
structure Args where
  audio_file : String
  model : String
  language : Option String
  device : String

/-- Observable behaviour of one process run: exit status, the strings
printed to stdout (each `print` call one entry, newline-terminated), and
the lines printed to stderr. -/
structure RunResult where
  exitCode : Nat
  stdout : List String
  stderr : List String
deriving DecidableEq, Repr

/-- The interpreter's report for an exception that escapes `main`. -/
def tracebackLine (e : PyExc) : String :=
  "Traceback (most recent call last): " ++ e.msg

/-- `main()` after argument parsing: detect the device, load the model,
transcribe, and print the transcription to stdout.  An exception escaping
`detect_device` reaches the interpreter, which prints a traceback to
stderr and exits with status 1. -/
def main (env : Env) (args : Args) : RunResult :=
  match detect_device env args.device with
  | (Except.error e, errs1) =>
    { exitCode := 1, stdout := [], stderr := errs1 ++ [tracebackLine e] }
  | (Except.ok (device, use_fp16), errs1) =>
    match load_model env args.model device use_fp16 with
    | (Outcome.exited c, errs2) =>
      { exitCode := c, stdout := [], stderr := errs1 ++ errs2 }
    | (Outcome.ok model, errs2) =>
      match transcribe_audio env model args.audio_file args.language use_fp16 with
      | (Outcome.exited c, errs3) =>
        { exitCode := c, stdout := [], stderr := errs1 ++ errs2 ++ errs3 }
      | (Outcome.ok transcription, errs3) =>
        { exitCode := 0, stdout := [transcription],
          stderr := errs1 ++ errs2 ++ errs3 }

/-- `True` iff the auto chain's first `try` block completes: the
`torch_directml` import and device construction both succeed. -/
def dmlAutoAvailable (env : Env) : Bool :=
  (match env.directmlImport with
   | Except.ok _ => true
   | Except.error _ => false) &&
  (match env.directmlDevice with
   | Except.ok _ => true
   | Except.error _ => false)

/-- `True` iff the auto chain's second `try` block returns: torch
imports, `torch.cuda.is_available()` returns `True`, and the device name
query succeeds. -/
def cudaAutoAvailable (env : Env) : Bool :=
  (match env.torchImport with
   | Except.ok _ => true
   | Except.error _ => false) &&
  (match env.cudaIsAvailable with
   | Except.ok true => true
   | _ => false) &&
  (match env.cudaName with
   | Except.ok _ => true
   | Except.error _ => false)

/-- Any requested tag other than the three recognised ones falls through
every `if` in `detect_device` to the auto-detection chain, which selects
DirectML, then CUDA, then CPU. -/
theorem detect_device_auto_branch (env : Env) (requested : String)
    (h1 : requested ≠ "cpu") (h2 : requested ≠ "cuda")
    (h3 : requested ≠ "directml") :
    (detect_device env requested).1 =
      Except.ok
        (if dmlAutoAvailable env then (Device.dml, false)
         else if cudaAutoAvailable env then (Device.cuda, true)
         else (Device.cpu, false)) := by
  rcases env with ⟨ti, di, dd, ca, cn, fe, lmn, lmd, mv, tr⟩
  rcases ti with e | u <;> rcases di with e2 | u2 <;> rcases dd with e3 | u3 <;>
    rcases ca with e4 | b <;>
    first
      | (rcases b with _ | _ <;> rcases cn with e5 | s <;>
          simp [detect_device, dmlAutoAvailable, cudaAutoAvailable, h1, h2, h3])
      | simp [detect_device, dmlAutoAvailable, cudaAutoAvailable, h1, h2, h3]

/-- C4: with `--device auto`, the selector tries DirectML first, then
CUDA, then CPU, in that fixed priority order, and returns the first one
available. -/
theorem c4_auto_priority (env : Env) :
    (detect_device env "auto").1 =
      Except.ok
        (if dmlAutoAvailable env then (Device.dml, false)
         else if cudaAutoAvailable env then (Device.cuda, true)
         else (Device.cpu, false)) :=
  detect_device_auto_branch env "auto" (by decide) (by decide) (by decide)

/-- C5: requesting `cpu` returns `("cpu", False)` with nothing printed,
for every hardware configuration, without consulting any probe. -/
theorem c5_cpu_forced (env : Env) :
    detect_device env "cpu" = (Except.ok (Device.cpu, false), []) := rfl

/-- A machine where every import, probe and library call succeeds, the
input file exists, and inference returns text with surrounding
whitespace. -/
def envAllOk : Env :=
  { torchImport := Except.ok ()
    directmlImport := Except.ok ()
    directmlDevice := Except.ok ()
    cudaIsAvailable := Except.ok true
    cudaName := Except.ok "NVIDIA GeForce RTX 3080"
    fileExists := fun _ => true
    loadModelNative := fun _ _ => Except.ok 0
    loadModelDefault := fun _ => Except.ok 0
    moveModel := fun m => Except.ok m
    transcribe := fun _ _ _ => Except.ok ⟨"  hello world  ", "en"⟩ }

/-- A bare machine: no torch, no torch-directml, no input file, every
library call failing. -/
def envBare : Env :=
  { torchImport := Except.error (PyExc.importError "No module named torch")
    directmlImport :=
      Except.error (PyExc.importError "No module named torch_directml")
    directmlDevice := Except.error (PyExc.importError "no device")
    cudaIsAvailable := Except.ok false
    cudaName := Except.error (PyExc.otherError "no cuda")
    fileExists := fun _ => false
    loadModelNative := fun _ _ => Except.error (PyExc.otherError "no weights")
    loadModelDefault := fun _ => Except.error (PyExc.otherError "no weights")
    moveModel := fun _ => Except.error (PyExc.otherError "no move")
    transcribe := fun _ _ _ => Except.error (PyExc.otherError "no audio") }

/-- A machine with torch installed but no CUDA accelerator; everything
else works and the input file exists. -/
def envNoCuda : Env :=
  { envAllOk with
    cudaIsAvailable := Except.ok false
    cudaName := Except.error (PyExc.otherError "invalid device ordinal") }

/-- The standard test arguments: default model, language and device. -/
def argsDefault : Args :=
  { audio_file := "sample.wav", model := "base", language := none,
    device := "auto" }

/-- C6: requesting `cuda` when the CUDA availability probe reports the
accelerator unavailable returns `("cpu", False)` and prints the fallback
warning to stderr. -/
theorem c6_cuda_unavailable_fallback (env : Env)
    (ht : env.torchImport = Except.ok ())
    (hc : env.cudaIsAvailable = Except.ok false) :
    detect_device env "cuda" =
      (Except.ok (Device.cpu, false),
       ["CUDA requested but not available, falling back to CPU"]) := by
  simp [detect_device, ht, hc]

/-- Witness for C6 on a concrete torch-without-CUDA machine. -/
theorem c6_cuda_unavailable_fallback_witness :
    detect_device envNoCuda "cuda" =
      (Except.ok (Device.cpu, false),
       ["CUDA requested but not available, falling back to CPU"]) :=
  c6_cuda_unavailable_fallback envNoCuda rfl rfl

/-- C8: when the resolved device is the `"cpu"` or `"cuda"` string the
checkpoint load succeeds exactly when the library's native
device-argument load does, and for the DirectML device object exactly
when the default-placement load followed by an explicit move does. -/
theorem c8_model_placement (env : Env) (name : String) (fp : Bool) :
    (∀ m : Model,
      ((load_model env name Device.cpu fp).1 = Outcome.ok m ↔
        env.loadModelNative name Device.cpu = Except.ok m)) ∧
    (∀ m : Model,
      ((load_model env name Device.cuda fp).1 = Outcome.ok m ↔
        env.loadModelNative name Device.cuda = Except.ok m)) ∧
    (∀ m : Model,
      ((load_model env name Device.dml fp).1 = Outcome.ok m ↔
        ∃ m0 : Model, env.loadModelDefault name = Except.ok m0 ∧
          env.moveModel m0 = Except.ok m)) := by
  refine ⟨fun m => ?_, fun m => ?_, fun m => ?_⟩
  · unfold load_model loadAttempt
    rcases h : env.loadModelNative name Device.cpu with e | m' <;> simp [h]
  · unfold load_model loadAttempt
    rcases h : env.loadModelNative name Device.cuda with e | m' <;> simp [h]
  · unfold load_model loadAttempt
    rcases h : env.loadModelDefault name with e | m0
    · simp [h]
    · rcases h2 : env.moveModel m0 with e2 | m' <;> simp [h, h2]

/-- C9: the `use_fp16` flag returned by `detect_device` is `True` exactly
when the resolved device is CUDA; in particular the DirectML device is
always paired with `False`. -/
theorem c9_fp16_iff_cuda (env : Env) (requested : String) (d : Device)
    (fp : Bool)
    (h : (detect_device env requested).1 = Except.ok (d, fp)) :
    fp = true ↔ d = Device.cuda := by
  rcases env with ⟨ti, di, dd, ca, cn, fe, lmn, lmd, mv, tr⟩
  unfold detect_device at h
  by_cases h1 : requested = "cpu"
  · simp only [h1, if_true] at h
    simp at h
    obtain ⟨hd, hf⟩ := h
    subst hd; subst hf; decide
  by_cases h2 : requested = "cuda"
  · simp only [h1, if_false, h2, if_true] at h
    rcases ti with e | u <;> rcases ca with e4 | (_ | _) <;>
      rcases cn with e5 | s <;>
      first
        | (simp at h; obtain ⟨hd, hf⟩ := h; subst hd; subst hf; decide)
        | simp at h
  by_cases h3 : requested = "directml"
  · simp only [h1, if_false, h2, h3, if_true] at h
    rcases di with (⟨m⟩ | ⟨m⟩) | u2 <;> rcases dd with (⟨m2⟩ | ⟨m2⟩) | u3 <;>
      first
        | (simp at h; obtain ⟨hd, hf⟩ := h; subst hd; subst hf; decide)
        | simp at h
  · simp only [h1, if_false, h2, h3] at h
    rcases di with e2 | u2 <;> rcases dd with e3 | u3 <;>
      rcases ti with e | u <;> rcases ca with e4 | (_ | _) <;>
      rcases cn with e5 | s <;>
      first
        | (simp at h; obtain ⟨hd, hf⟩ := h; subst hd; subst hf; decide)
        | simp at h

/-- Witness for C9 on the all-available machine with `--device auto`. -/
theorem c9_fp16_iff_cuda_witness :
    (false = true ↔ Device.dml = Device.cuda) :=
  c9_fp16_iff_cuda envAllOk "auto" Device.dml false rfl

/-- C1: on every run that exits with status 0, stdout is exactly one
`print` of the library's transcript text trimmed of surrounding
whitespace; every other message went to stderr. -/
theorem c1_stdout_is_trimmed_transcript (env : Env) (args : Args)
    (h : (main env args).exitCode = 0) :
    ∃ d fp m r,
      (detect_device env args.device).1 = Except.ok (d, fp) ∧
      loadAttempt env args.model d = Except.ok m ∧
      env.transcribe m args.audio_file (mkOptions fp args.language) =
        Except.ok r ∧
      (main env args).stdout = [r.text.trim] := by
  rcases hdet : detect_device env args.device with ⟨res, errs1⟩
  rcases res with e | ⟨d, fp⟩
  · simp [main, hdet] at h
  · rcases hla : loadAttempt env args.model d with e | m
    · simp [main, hdet, load_model, hla] at h
    · rcases hfe : env.fileExists args.audio_file with _ | _
      · simp [main, hdet, load_model, hla, transcribe_audio, hfe] at h
      · rcases htr : env.transcribe m args.audio_file
            (mkOptions fp args.language) with e | r
        · simp [main, hdet, load_model, hla, transcribe_audio, hfe, htr] at h
        · refine ⟨d, fp, m, r, ?_, hla, htr, ?_⟩
          · simp [hdet]
          · simp [main, hdet, load_model, hla, transcribe_audio, hfe, htr]

/-- Witness for C1 on the all-available machine: the library returns
`"  hello world  "` and stdout is exactly `["hello world"]`. -/
theorem c1_stdout_is_trimmed_transcript_witness :
    ∃ d fp m r,
      (detect_device envAllOk argsDefault.device).1 = Except.ok (d, fp) ∧
      loadAttempt envAllOk argsDefault.model d = Except.ok m ∧
      envAllOk.transcribe m argsDefault.audio_file
        (mkOptions fp argsDefault.language) = Except.ok r ∧
      (main envAllOk argsDefault).stdout = [r.text.trim] :=
  c1_stdout_is_trimmed_transcript envAllOk argsDefault rfl

/-- C2: whenever the input path does not exist, the run exits with
status 1, prints nothing to stdout, and prints a diagnostic to stderr. -/
theorem c2_missing_file (env : Env) (args : Args)
    (h : env.fileExists args.audio_file = false) :
    (main env args).exitCode = 1 ∧ (main env args).stdout = [] ∧
      (main env args).stderr ≠ [] := by
  rcases hdet : detect_device env args.device with ⟨res, errs1⟩
  rcases res with e | ⟨d, fp⟩
  · simp [main, hdet]
  · rcases hla : loadAttempt env args.model d with e | m
    · simp [main, hdet, load_model, hla]
    · simp [main, hdet, load_model, hla, transcribe_audio, h]

/-- Witness for C2 on the bare machine, where no input file exists. -/
theorem c2_missing_file_witness :
    (main envBare argsDefault).exitCode = 1 ∧
      (main envBare argsDefault).stdout = [] ∧
      (main envBare argsDefault).stderr ≠ [] :=
  c2_missing_file envBare argsDefault rfl

/-- C3: any library exception during the model-load attempt or during
inference makes the run exit with status 1, with the error reported on
stderr and nothing on stdout. -/
theorem c3_library_failure_fatal (env : Env) (args : Args) (d : Device)
    (fp : Bool)
    (hdet : (detect_device env args.device).1 = Except.ok (d, fp))
    (hfail :
      (∃ e, loadAttempt env args.model d = Except.error e) ∨
      (∃ m e, loadAttempt env args.model d = Except.ok m ∧
        env.fileExists args.audio_file = true ∧
        env.transcribe m args.audio_file (mkOptions fp args.language) =
          Except.error e)) :
    (main env args).exitCode = 1 ∧ (main env args).stdout = [] ∧
      (∃ msg,
        ("Error loading model: " ++ msg) ∈ (main env args).stderr ∨
        ("Error during transcription: " ++ msg) ∈ (main env args).stderr) := by
  rcases hd : detect_device env args.device with ⟨res, errs1⟩
  rw [hd] at hdet
  simp only at hdet
  subst hdet
  rcases hfail with ⟨e, hla⟩ | ⟨m, e, hla, hfe, htr⟩
  · refine ⟨?_, ?_, e.msg, Or.inl ?_⟩ <;>
      simp [main, hd, load_model, hla]
  · refine ⟨?_, ?_, e.msg, Or.inr ?_⟩ <;>
      simp [main, hd, load_model, hla, transcribe_audio, hfe, htr]

/-- Witness for C3 on the bare machine: the load attempt raises and the
run exits 1 with the load error on stderr. -/
theorem c3_library_failure_fatal_witness :
    (main envBare argsDefault).exitCode = 1 ∧
      (main envBare argsDefault).stdout = [] ∧
      (∃ msg,
        ("Error loading model: " ++ msg) ∈ (main envBare argsDefault).stderr ∨
        ("Error during transcription: " ++ msg) ∈
          (main envBare argsDefault).stderr) :=
  c3_library_failure_fatal envBare argsDefault Device.cpu false rfl
    (Or.inl ⟨PyExc.otherError "no weights", rfl⟩)

/-- C7 counterexample: on a machine without torch installed, requesting
`cuda` runs `import torch` outside any `try`, so the ImportError escapes
`detect_device` instead of falling back — the claim that no probe
failure can escape the selector is false. -/
theorem c7_counterexample :
    (detect_device envBare "cuda").1 =
      Except.error (PyExc.importError "No module named torch") := rfl

/-- C7 as amended: the `auto` chain and the `cpu` branch always return
normally for every probe behaviour; the `cuda` branch returns normally
provided `import torch` succeeds and the CUDA probes do not raise; the
`directml` branch returns normally provided its probe failures are
ImportErrors, the only class its handler catches.  No branch ever calls
`sys.exit`. -/
theorem c7_amended (env : Env) (requested : String) :
    (requested ≠ "cpu" → requested ≠ "cuda" → requested ≠ "directml" →
      ∃ d fp, (detect_device env requested).1 = Except.ok (d, fp)) ∧
    ((detect_device env "cpu").1 = Except.ok (Device.cpu, false)) ∧
    (env.torchImport = Except.ok () →
      (∀ e, env.cudaIsAvailable ≠ Except.error e) →
      (∀ e, env.cudaName ≠ Except.error e) →
      ∃ d fp, (detect_device env "cuda").1 = Except.ok (d, fp)) ∧
    ((∀ m, env.directmlImport ≠ Except.error (PyExc.otherError m)) →
      (∀ m, env.directmlDevice ≠ Except.error (PyExc.otherError m)) →
      ∃ d fp, (detect_device env "directml").1 = Except.ok (d, fp)) := by
  refine ⟨fun h1 h2 h3 => ?_, rfl, fun ht hca hcn => ?_, fun hdi hdd => ?_⟩
  · rw [detect_device_auto_branch env requested h1 h2 h3]
    rcases dmlAutoAvailable env with _ | _ <;>
      rcases cudaAutoAvailable env with _ | _ <;> simp
  · rcases hb : env.cudaIsAvailable with e | b
    · exact absurd hb (hca e)
    · rcases b with _ | _
      · exact ⟨Device.cpu, false, by simp [detect_device, ht, hb]⟩
      · rcases hn : env.cudaName with e | s
        · exact absurd hn (hcn e)
        · exact ⟨Device.cuda, true, by simp [detect_device, ht, hb, hn]⟩
  · rcases hi : env.directmlImport with (⟨m⟩ | ⟨m⟩) | u
    · exact ⟨Device.cpu, false, by simp [detect_device, hi]⟩
    · exact absurd hi (hdi m)
    · rcases hd : env.directmlDevice with (⟨m2⟩ | ⟨m2⟩) | u2
      · exact ⟨Device.cpu, false, by simp [detect_device, hi, hd]⟩
      · exact absurd hd (hdd m2)
      · exact ⟨Device.dml, false, by simp [detect_device, hi, hd]⟩

/-- Witness for the amended C7: on the bare machine the auto chain still
returns normally. -/
theorem c7_amended_witness :
    ∃ d fp, (detect_device envBare "auto").1 = Except.ok (d, fp) :=
  (c7_amended envBare "auto").1 (by decide) (by decide) (by decide)

/-- C10: two runs with the same arguments, the same resolved device, and
an underlying library behaving identically (deterministic `load` and
`transcribe`, same filesystem) print identical stdout. -/
theorem c10_determinism (env1 env2 : Env) (args : Args)
    (hfe : env1.fileExists = env2.fileExists)
    (hln : env1.loadModelNative = env2.loadModelNative)
    (hld : env1.loadModelDefault = env2.loadModelDefault)
    (hmv : env1.moveModel = env2.moveModel)
    (htr : env1.transcribe = env2.transcribe)
    (hdet : (detect_device env1 args.device).1 =
      (detect_device env2 args.device).1) :
    (main env1 args).stdout = (main env2 args).stdout := by
  rcases h1 : detect_device env1 args.device with ⟨r1, e1⟩
  rcases h2 : detect_device env2 args.device with ⟨r2, e2⟩
  rw [h1, h2] at hdet
  simp only at hdet
  subst hdet
  rcases r1 with e | ⟨d, fp⟩
  · simp [main, h1, h2]
  · have hla : loadAttempt env1 args.model d = loadAttempt env2 args.model d := by
      unfold loadAttempt
      simp only [hln, hld, hmv]
    rcases hl : loadAttempt env2 args.model d with e | m
    · simp [main, h1, h2, load_model, hla.trans hl, hl]
    · rcases hf : env2.fileExists args.audio_file with _ | _
      · simp [main, h1, h2, load_model, hla.trans hl, hl, transcribe_audio,
          hfe, hf]
      · rcases ht : env2.transcribe m args.audio_file
            (mkOptions fp args.language) with e | r <;>
          simp [main, h1, h2, load_model, hla.trans hl, hl, transcribe_audio,
            hfe, hf, htr, ht]

/-- Witness for C10: the two runs on the all-available machine agree. -/
theorem c10_determinism_witness :
    (main envAllOk argsDefault).stdout = (main envAllOk argsDefault).stdout :=
  c10_determinism envAllOk envAllOk argsDefault rfl rfl rfl rfl rfl rfl

end WhisperService
